import Mathlib

/-!
Verification of the clipsync selection-synchronization core (client.go,
xselection.go, crypt.go) against its natural-language specification.

The Go code is shallowly embedded: each loop iteration / message handler is a
pure Lean function from its inputs (backend reads, configuration, in-memory
selection state, the raw payload) to the ordered list of side effects it
performs.  External collaborators (gob envelope codec, AES-GCM encryption,
MD5 digest, the xclip binary, the Go mutex runtime) are modelled by concrete
executable functions whose only properties used are the ones the source
relies on (injectivity / round-tripping / Go runtime semantics).
-/

deriving instance DecidableEq for Except

namespace Clipsync

/-- Lineformat (client.go 29-32): the envelope serialized for transmission,
tagging a message with the sender instance ID. -/
structure Lineformat where
  InstanceID : String
  Message : String
  deriving DecidableEq

/-- In-memory last-known selection values (xselection.go 25-29): the
`primary` and `clipboard` fields of the xselection structure. -/
structure MemState where
  primary : String
  clipboard : String
  deriving DecidableEq

/-- One observable side effect of the client code, in program order.
setXPrimary/setXClipboard are backend (xclip) write attempts; setMemPrimary/
setMemClipboard are SelectionStore updates; schedulePublish is a send on the
delayed-publish channel (dpchan); brokerPublish is an actual
broker.Publish call; cacheGet/cacheSet touch the dedup hash cache;
decodeAttempt marks a call to decodeMQTT; lockMutex/unlockMutex are the
globalMutex operations; sleepRetry is the 2-second wait in the cnotify error
branch. -/
inductive Effect
  | setXPrimary (s : String)
  | setXClipboard (s : String)
  | setMemPrimary (s : String)
  | setMemClipboard (s : String)
  | schedulePublish (s : String)
  | brokerPublish (payload : String)
  | cacheGet (h : String)
  | cacheSet (h : String)
  | decodeAttempt
  | lockMutex
  | unlockMutex
  | sleepRetry
  deriving DecidableEq

/-- True for backend (xclip) write attempts. -/
def Effect.isBackendWrite : Effect → Bool
  | .setXPrimary _ => true
  | .setXClipboard _ => true
  | _ => false

/-- True for SelectionStore (in-memory) updates. -/
def Effect.isMemUpdate : Effect → Bool
  | .setMemPrimary _ => true
  | .setMemClipboard _ => true
  | _ => false

/-- True for outbound publications (either a scheduled delayed publish or a
direct broker publish). -/
def Effect.isPublish : Effect → Bool
  | .schedulePublish _ => true
  | .brokerPublish _ => true
  | _ => false

/-- True for dedup-cache accesses. -/
def Effect.isCacheAccess : Effect → Bool
  | .cacheGet _ => true
  | .cacheSet _ => true
  | _ => false

/-- Contents of the scheduled publications in a trace, in order. -/
def publishesOf : List Effect → List String
  | [] => []
  | .schedulePublish s :: rest => s :: publishesOf rest
  | _ :: rest => publishesOf rest

/-- isQuirk (client.go 437-448).  Go string literals are byte strings: the
map keys are "\xc2\xa0" (U+00A0, non-breaking space), "\xc2\xb4" (U+00B4,
acute accent), "\xc2\xa8¨" — the hex escape for U+00A8 followed by a literal
umlaut character, i.e. the TWO-character string U+00A8 U+00A8 — and the
ASCII strings for backtick, tilde and caret.  Go map lookup compares the
whole byte string, which on valid UTF-8 input agrees with Lean character
string equality. -/
def isQuirk (s : String) : Bool :=
  s = " " || s = "´" || s = "¨¨" || s = "`" || s = "~" || s = "^"

/-- Client configuration flags used by clientloop (main.go: --fix-chrome-quirk
and --sync-selections). -/
structure ClientConfig where
  chromequirk : Bool
  syncsel : Bool
  deriving DecidableEq

/-- Effects of syncPrimaryToClip (client.go 389-408): write the clipboard
backend, then set both memory fields to the primary value.  The backend write
attempt is recorded even when xclip fails, since a failure is only logged. -/
def syncPrimaryToClipEffects (xprimary : String) : List Effect :=
  [.setXClipboard xprimary, .setMemClipboard xprimary, .setMemPrimary xprimary]

/-- Effects of syncClipToPrimary (client.go 411-430): write the primary
backend, then set both memory fields to the clipboard value. -/
def syncClipToPrimaryEffects (xclipboard : String) : List Effect :=
  [.setXPrimary xclipboard, .setMemPrimary xclipboard, .setMemClipboard xclipboard]

/-- One iteration of clientloop (client.go 203-321), as the ordered list of
side effects it performs.  Inputs: the configuration, the return value of
cnotify(), the values read from the backend for the primary and clipboard
selections after acquiring the lock, and the in-memory state.  The branch
structure mirrors the source exactly: the cnotify error branch (210-215)
logs, sleeps and unlocks; otherwise the mutex is locked (221), the selections
and memory are read (223-226), the changed flags are computed (228-229), the
empty-primary guard fires (234-238), the dual-change branch fires (245-259),
the chrome-quirk restoration reassigns xprimary (265-271), the publication
value is chosen (276-280), the optional selection sync runs (283-305) and the
chosen value, if non-empty, is sent to the delayed-publish channel
(309-317). -/
def clientloopIter (cfg : ClientConfig) (cnotifyResult : Int)
    (xprimaryRead xclipboard : String) (mem : MemState) : List Effect :=
  if cnotifyResult ≠ 0 then
    [.sleepRetry, .unlockMutex]
  else
    let memPrimary := mem.primary
    let memClipboard := mem.clipboard
    let primaryChanged : Prop := xprimaryRead ≠ memPrimary
    let clipboardChanged : Prop := xclipboard ≠ memClipboard
    if xprimaryRead = "" then
      [.lockMutex, .unlockMutex]
    else if primaryChanged ∧ clipboardChanged then
      [.lockMutex, .setMemPrimary xprimaryRead, .setMemClipboard xclipboard,
       .schedulePublish xprimaryRead, .unlockMutex]
    else
      let quirkFires : Prop :=
        cfg.chromequirk = true ∧ isQuirk xprimaryRead = true ∧ isQuirk memPrimary = false
      let quirkEffects := if quirkFires then [Effect.setXPrimary memPrimary] else []
      let xprimary := if quirkFires then memPrimary else xprimaryRead
      let pub0 := if xprimary ≠ "" ∧ primaryChanged then xprimary else ""
      let needPrimarySync : Prop := primaryChanged ∧ xprimary ≠ "" ∧ xprimary ≠ memClipboard
      let needClipboardSync : Prop :=
        ¬needPrimarySync ∧ clipboardChanged ∧ xclipboard ≠ "" ∧ xclipboard ≠ memPrimary
      let syncEffects :=
        if cfg.syncsel then
          if needPrimarySync then syncPrimaryToClipEffects xprimary
          else if needClipboardSync then syncClipToPrimaryEffects xclipboard
          else []
        else []
      let pub := if cfg.syncsel ∧ needClipboardSync then xclipboard else pub0
      let pubEffects := if pub ≠ "" then [Effect.schedulePublish pub] else []
      [Effect.lockMutex] ++ quirkEffects ++ syncEffects ++ pubEffects ++ [Effect.unlockMutex]

/-- Go sync.Mutex semantics over a single goroutine's trace: Lock sets the
bit, Unlock of a locked mutex clears it, and Unlock of an unlocked mutex is
the unrecoverable Go run-time error "sync: unlock of unlocked mutex"
(it aborts the whole process and cannot be recovered). -/
def runMutex (locked : Bool) : List Effect → Except String Bool
  | [] => .ok locked
  | .lockMutex :: rest => runMutex true rest
  | .unlockMutex :: rest =>
      if locked then runMutex false rest else .error "sync: unlock of unlocked mutex"
  | _ :: rest => runMutex locked rest

/-- Replay the SelectionStore updates of a trace onto a memory state. -/
def applyMem (mem : MemState) : List Effect → MemState
  | [] => mem
  | .setMemPrimary s :: rest => applyMem ⟨s, mem.clipboard⟩ rest
  | .setMemClipboard s :: rest => applyMem ⟨mem.primary, s⟩ rest
  | _ :: rest => applyMem mem rest

/-- Longest prefix of decimal digits of a character list, and the rest. -/
def spanDigits : List Char → List Char × List Char
  | [] => ([], [])
  | c :: cs =>
    if c.isDigit then
      let p := spanDigits cs
      (c :: p.1, p.2)
    else ([], c :: cs)

/-- Decimal value of a digit list. -/
def digitsToNat (ds : List Char) : Nat :=
  ds.foldl (fun acc c => acc * 10 + (c.toNat - 48)) 0

/-- Model of the external gob envelope codec (encoding side), an external
collaborator per the spec: encode(instanceID, message) -> opaque bytes.  The
model is a concrete injective, length-prefixed rendering of the Lineformat
structure; the code only relies on the codec being a fixed injective
encoding of the pair that decodes back to it. -/
def encodeEnvelope (m : Lineformat) : String :=
  "gob:" ++ toString m.InstanceID.length ++ ":" ++ m.InstanceID
    ++ toString m.Message.length ++ ":" ++ m.Message

/-- Parse one length-prefixed field produced by encodeEnvelope. -/
def parseLenPrefixed (cs : List Char) : Option (String × List Char) :=
  let p := spanDigits cs
  if p.1 = [] then none
  else
    match p.2 with
    | ':' :: rest =>
      let n := digitsToNat p.1
      if rest.length < n then none
      else some (String.mk (rest.take n), rest.drop n)
    | _ => none

/-- Model of the external gob envelope codec (decoding side): the partial
inverse of encodeEnvelope; anything else is a decoding error (none). -/
def decodeEnvelope (s : String) : Option Lineformat :=
  match s.data with
  | 'g' :: 'o' :: 'b' :: ':' :: rest =>
    match parseLenPrefixed rest with
    | some (iid, rest2) =>
      match parseLenPrefixed rest2 with
      | some (msg, []) => some ⟨iid, msg⟩
      | _ => none
    | none => none
  | _ => none

/-- cryptKeyLen (crypt.go 17): AES-256 keys must be exactly 32 bytes. -/
def cryptKeyLen : Nat := 32

/-- Model of encrypt64 (crypt.go 69-75), the external AES-GCM + base64
collaborator: rejects keys that are not cryptKeyLen bytes (newGCM, crypt.go
21-23), otherwise produces a ciphertext from which only the matching key
recovers the cleartext.  The real function also draws a random nonce; the
model is deterministic, which is faithful for the dedup logic proved here
since that logic keys on the exact delivered payload bytes. -/
def encrypt64 (cleartext : String) (key : List Nat) : Except String String :=
  if key.length ≠ cryptKeyLen then .error "key must be exactly 32 bytes long"
  else .ok ("enc" ++ toString key ++ ":" ++ cleartext)

/-- Model of decrypt64 (crypt.go 78-88): fails on data not produced under
the same key (authenticated encryption), otherwise recovers the cleartext. -/
def decrypt64 (ciphertext : String) (key : List Nat) : Except String String :=
  if key.length ≠ cryptKeyLen then .error "key must be exactly 32 bytes long"
  else
    let tag := "enc" ++ toString key ++ ":"
    if tag.data.isPrefixOf ciphertext.data then .ok (String.mk (ciphertext.data.drop tag.data.length))
    else .error "error decrypting text"

/-- decodeMQTT (client.go 161-183): decrypt when a password is set (any
decryption error fails the decode), reject a zero-length plaintext, then gob
decode the Lineformat envelope. -/
def decodeMQTT (data : String) (cryptPassword : List Nat) : Except String Lineformat :=
  let plainE : Except String String :=
    if cryptPassword.length > 0 then decrypt64 data cryptPassword else .ok data
  match plainE with
  | .error e => .error e
  | .ok plain =>
    if plain = "" then .error "ignoring zero-length message received from broker"
    else
      match decodeEnvelope plain with
      | some m => .ok m
      | none => .error "error decoding MQTT message"

/-- Dedup cache TTL (client.go 52): cache.New(24*time.Hour, ...), in
seconds. -/
def cacheTTLSeconds : Nat := 24 * 60 * 60

/-- The go-cache dedup cache (github.com/patrickmn/go-cache, an external
collaborator): digest -> expiration time. -/
structure HashCache where
  entries : List (String × Nat)
  deriving DecidableEq

/-- go-cache Get: an entry is found if present and not yet expired (go-cache
treats an item as expired when now is past its expiration time). -/
def HashCache.get (c : HashCache) (now : Nat) (h : String) : Bool :=
  c.entries.any (fun e => e.1 = h && now ≤ e.2)

/-- go-cache Set with DefaultExpiration: (re)insert the digest with
expiration now + TTL. -/
def HashCache.set (c : HashCache) (now : Nat) (h : String) : HashCache :=
  ⟨(h, now + cacheTTLSeconds) :: c.entries.filter (fun e => e.1 ≠ h)⟩

/-- Model of the MD5 hex digest of the raw payload (crypto/md5, external
collaborator), abstracted as a collision-free fingerprint: the dedup logic
proved here relies only on equal payloads having equal digests. -/
def md5hex (payload : String) : String := "md5:" ++ payload

/-- Result of processing one inbound message: the effect trace and the dedup
cache afterwards. -/
structure SubResult where
  effects : List Effect
  cache : HashCache
  deriving DecidableEq

/-- Processing of one inbound broker message by subHandler (client.go
77-156), as the ordered effect trace plus the resulting dedup-cache state.
Inputs: the syncsel flag, this instance's ID, the crypt password, the cache
and current time, the raw payload, the clipboard value read from the backend
(line 117) and the in-memory state.  Mirrors the source: lock (82); when
encryption is on, hash the raw payload and drop it if the digest is cached
(92-100); decode (102-107, failures drop the message); on success and with
encryption on, record the digest (112-114); drop zero-length content
(120-124); drop echoes — sender ID equal to ours, or content equal to the
in-memory primary (130-135); otherwise write the primary backend and memory
(137-140) and, when syncsel is on and the content differs from the clipboard
read, mirror primary to clipboard (146-152); unlock. -/
def subHandlerStep (syncsel : Bool) (instanceID : String) (cryptPassword : List Nat)
    (cache : HashCache) (now : Nat) (payload : String)
    (xclipboardRead : String) (mem : MemState) : SubResult :=
  let hash := md5hex payload
  if cryptPassword.length > 0 ∧ cache.get now hash = true then
    ⟨[.lockMutex, .cacheGet hash, .unlockMutex], cache⟩
  else
    let preEffects := if cryptPassword.length > 0 then [Effect.cacheGet hash] else []
    match decodeMQTT payload cryptPassword with
    | .error _ => ⟨[Effect.lockMutex] ++ preEffects ++ [.decodeAttempt, .unlockMutex], cache⟩
    | .ok mqttmsg =>
      let cacheEffects := if cryptPassword.length > 0 then [Effect.cacheSet hash] else []
      let cache2 := if cryptPassword.length > 0 then cache.set now hash else cache
      let xprimary := mqttmsg.Message
      if xprimary = "" then
        ⟨[Effect.lockMutex] ++ preEffects ++ [.decodeAttempt] ++ cacheEffects
          ++ [.unlockMutex], cache2⟩
      else if mqttmsg.InstanceID = instanceID ∨ xprimary = mem.primary then
        ⟨[Effect.lockMutex] ++ preEffects ++ [.decodeAttempt] ++ cacheEffects
          ++ [.unlockMutex], cache2⟩
      else
        let syncEffects :=
          if syncsel = true ∧ xprimary ≠ xclipboardRead then syncPrimaryToClipEffects xprimary
          else []
        ⟨[Effect.lockMutex] ++ preEffects ++ [.decodeAttempt] ++ cacheEffects
          ++ [Effect.setXPrimary xprimary, Effect.setMemPrimary xprimary]
          ++ syncEffects ++ [.unlockMutex], cache2⟩

/-- The payload that publish (client.go 326-355) hands to broker.Publish,
or none when the function returns early on an encode/encrypt error.  The
source gob encodes the Lineformat envelope into buf, declares
var cryptdata string (zero value: the empty string), assigns it only inside
the encryption branch, and always publishes cryptdata. -/
def publishPayload (s instanceID : String) (cryptPassword : List Nat) : Option String :=
  let buf := encodeEnvelope ⟨instanceID, s⟩
  let cryptdata : String := ""
  if cryptPassword.length > 0 then
    match encrypt64 buf cryptPassword with
    | .ok c => some c
    | .error _ => none
  else some cryptdata

/-- The record buffered by delayedPublish (client.go 19-25): everything a
later publish call needs. -/
structure DelayedPublishEntry where
  topic : String
  content : String
  instanceID : String
  cryptPassword : List Nat
  deriving DecidableEq

/-- The zero value of delayedPublishChan that the buffer is reset to after a
flush (client.go 382). -/
def emptyEntry : DelayedPublishEntry := ⟨"", "", "", []⟩

/-- The settle window of delayedPublish (client.go 378):
time.After(1 * time.Second). -/
def settleSeconds : Nat := 1

/-- The two things that can wake the delayedPublish select (client.go
366-384): a value arriving on the channel, or the settle timer firing.  The
timer is re-armed on every pass through the loop, so a timerFired event
occurs exactly when settleSeconds elapse with no arrival; within a burst
whose consecutive arrivals are less than settleSeconds apart no timerFired
event occurs. -/
inductive DPEvent
  | recv (c : DelayedPublishEntry)
  | timerFired
  deriving DecidableEq

/-- One iteration of the delayedPublish select (client.go 366-384): an
arrival overwrites the buffer and publishes nothing; the timer publishes the
buffered entry if its content is non-empty and resets the buffer, and
otherwise does nothing.  Returns the new buffer and the publish calls made
(each output entry is one call to publish with the stored fields). -/
def dpStep (dp : DelayedPublishEntry) : DPEvent → DelayedPublishEntry × List DelayedPublishEntry
  | .recv c => (c, [])
  | .timerFired => if dp.content ≠ "" then (emptyEntry, [dp]) else (dp, [])

/-- Run delayedPublish over a sequence of events, collecting the publish
calls in order. -/
def dpRun (dp : DelayedPublishEntry) : List DPEvent → DelayedPublishEntry × List DelayedPublishEntry
  | [] => (dp, [])
  | e :: es =>
    let p := dpStep dp e
    let q := dpRun p.1 es
    (q.1, p.2 ++ q.2)

/-- Failure modes of running the external xclip binary (xselection.go
57-79): the executable is missing, the 1.5-second context deadline expires,
or xclip exits non-zero (which it does on an empty selection). -/
inductive XclipError
  | execNotFound
  | timeout
  | emptySelection
  deriving DecidableEq

/-- Outcome of xclip.Output(): its stdout, or an error. -/
inductive XclipResult
  | ok (out : String)
  | err (e : XclipError)
  deriving DecidableEq

/-- xclipTimeout (xselection.go 21): milliseconds granted to each xclip
invocation. -/
def xclipTimeout : Nat := 1500

/-- Argument list getXSelection builds for xclip (xselection.go 64-67). -/
def buildXclipArgs (sel mimetype : String) : List String :=
  let args := ["-selection", sel, "-o"]
  if mimetype ≠ "" then args ++ ["-t", mimetype] else args

/-- getXSelection (xselection.go 57-79), parameterized by the external xclip
run (a function from the argument list to its outcome): any error from
xclip — including the empty-selection error — returns the empty string and
nothing is logged; only a successful run returns its stdout.  The Lean
return type String (rather than Except) mirrors the Go signature, which has
no error result. -/
def getXSelection (xclipRun : List String → XclipResult) (sel mimetype : String) : String :=
  match xclipRun (buildXclipArgs sel mimetype) with
  | .ok out => out
  | .err _ => ""

/-- C1: refuted on the code.  With encryption disabled (empty crypt
password), publish hands broker.Publish the never-assigned cryptdata
variable — the empty string — and not the gob envelope encoding of
(instanceID, content): publishPayload "hello" "A" [] evaluates to some "",
which differs from the non-empty envelope encoding. -/
theorem publish_unencrypted_payload_is_empty :
    publishPayload "hello" "A" [] = some ""
    ∧ encodeEnvelope ⟨"A", "hello"⟩ ≠ ""
    ∧ publishPayload "hello" "A" [] ≠ some (encodeEnvelope ⟨"A", "hello"⟩) := by
  decide

/-- C2: refuted on the code.  When cnotify() reports an error (it returns
-1 when the X display cannot be opened), the error branch of clientloop
(client.go 210-215) logs, sleeps and then calls globalMutex.Unlock() — but
the mutex is not held at the top of the loop (it is released at the end of
every iteration and not yet re-acquired), so the Go runtime raises the
unrecoverable fatal error "sync: unlock of unlocked mutex" and the process
aborts, for every configuration and selection state. -/
theorem clientloop_cnotify_error_aborts (cfg : ClientConfig) (xp xc : String)
    (mem : MemState) :
    runMutex false (clientloopIter cfg (-1) xp xc mem)
      = Except.error "sync: unlock of unlocked mutex" := by
  have h : ((-1 : Int) ≠ 0) := by decide
  unfold clientloopIter
  rw [if_pos h]
  rfl

/-- C4: refuted on the code.  The quirk table entry written "\xc2\xa8¨" in
the Go source is the two-character string U+00A8 U+00A8 (the hex escape for
the umlaut followed by a literal umlaut), so isQuirk returns false on the
single-character umlaut string and true on the two-character one; the other
five listed single-character strings behave as claimed. -/
theorem isQuirk_umlaut_entry_is_two_chars :
    isQuirk "¨" = false
    ∧ isQuirk "¨¨" = true
    ∧ ("¨" : String).length = 1
    ∧ ("¨¨" : String).length = 2
    ∧ isQuirk " " = true
    ∧ isQuirk "´" = true
    ∧ isQuirk "`" = true
    ∧ isQuirk "~" = true
    ∧ isQuirk "^" = true := by
  decide

/-- C9: confirmed.  getXSelection is total at its public interface (Go
return type string, no error result), and every xclip failure — missing
executable, timeout, or the non-zero exit on an empty selection — yields
the empty string, indistinguishable from a successful read of genuinely
empty output. -/
theorem getXSelection_error_yields_empty (xclipRun : List String → XclipResult)
    (sel mimetype : String) (e : XclipError)
    (h : xclipRun (buildXclipArgs sel mimetype) = XclipResult.err e) :
    getXSelection xclipRun sel mimetype = ""
    ∧ getXSelection xclipRun sel mimetype
        = getXSelection (fun _ => XclipResult.ok "") sel mimetype := by
  constructor
  · unfold getXSelection
    rw [h]
  · unfold getXSelection
    rw [h]

/-- Witness for C9 at a concrete failing xclip run (timeout on the primary
selection with no mime type). -/
theorem getXSelection_error_yields_empty_witness :
    ((fun _ => XclipResult.err XclipError.timeout : List String → XclipResult)
        (buildXclipArgs "primary" "") = XclipResult.err XclipError.timeout)
    ∧ (getXSelection (fun _ => XclipResult.err XclipError.timeout) "primary" "" = ""
       ∧ getXSelection (fun _ => XclipResult.err XclipError.timeout) "primary" ""
           = getXSelection (fun _ => XclipResult.ok "") "primary" "") :=
  ⟨rfl, getXSelection_error_yields_empty
      (fun _ => XclipResult.err XclipError.timeout) "primary" "" XclipError.timeout rfl⟩

/-- C3, counterexample: in the code the changed flags are computed (client.go
228-229) before the quirk filter runs (265-271), not after.  Concretely,
with quirk protection and selection sync on, primary read as the backtick
quirk, memPrimary "hello" (not a quirk) and an unchanged clipboard, quirk
restoration fires and the effective xprimary equals memPrimary — yet the
cycle still schedules a publication ("hello") and still performs a
primary-to-clipboard cross-sync backend write, both of which the claim rules
out. -/
theorem quirk_filter_after_flags_counterexample :
    Effect.schedulePublish "hello" ∈ clientloopIter ⟨true, true⟩ 0 "`" "x" ⟨"hello", "x"⟩
    ∧ Effect.setXClipboard "hello" ∈ clientloopIter ⟨true, true⟩ 0 "`" "x" ⟨"hello", "x"⟩
    ∧ isQuirk "`" = true
    ∧ isQuirk "hello" = false := by
  decide

/-- C3, amended: the quirk filter is applied after the changed flags are
computed from the raw read.  When quirk restoration fires (quirk protection
on, raw primary read a quirk string, memPrimary not a quirk, clipboard
unchanged), memPrimary is written back to the primary backend and the
effective xprimary equals memPrimary, but primaryChanged keeps the value
computed from the raw read — true whenever the quirk read differs from
memPrimary — so the cycle schedules exactly one publication, carrying the
restored memPrimary value, when memPrimary is non-empty, and no publication
when memPrimary is empty (the publication guard at client.go 277 tests the
already-restored value). -/
theorem quirk_restoration_publishes_restored_value (cfg : ClientConfig)
    (xp xc : String) (mem : MemState)
    (hq : cfg.chromequirk = true) (hqp : isQuirk xp = true)
    (hqm : isQuirk mem.primary = false) (hne : xp ≠ "")
    (hchanged : xp ≠ mem.primary) (hclip : xc = mem.clipboard) :
    Effect.setXPrimary mem.primary ∈ clientloopIter cfg 0 xp xc mem
    ∧ publishesOf (clientloopIter cfg 0 xp xc mem)
        = if mem.primary = "" then [] else [mem.primary] := by
  obtain ⟨p, c⟩ := mem
  simp only at hqm hchanged hclip
  subst hclip
  by_cases hmp : p = "" <;>
  cases hs : cfg.syncsel <;>
  by_cases hpc : p = xc <;>
  simp_all [clientloopIter, publishesOf, syncPrimaryToClipEffects, syncClipToPrimaryEffects]

/-- Witness for the amended C3 at a concrete cycle: quirk protection on,
sync off, primary read backtick, memPrimary "hello" (non-empty), clipboard
"x" unchanged — restoration fires and exactly the restored "hello" is
scheduled. -/
theorem quirk_restoration_publishes_restored_value_witness :
    ((⟨true, false⟩ : ClientConfig).chromequirk = true
      ∧ isQuirk "`" = true ∧ isQuirk "hello" = false ∧ ("`" : String) ≠ ""
      ∧ ("`" : String) ≠ "hello" ∧ ("x" : String) = "x")
    ∧ (Effect.setXPrimary "hello" ∈ clientloopIter ⟨true, false⟩ 0 "`" "x" ⟨"hello", "x"⟩
       ∧ publishesOf (clientloopIter ⟨true, false⟩ 0 "`" "x" ⟨"hello", "x"⟩) = ["hello"]) :=
  ⟨by decide,
   quirk_restoration_publishes_restored_value ⟨true, false⟩ "`" "x" ⟨"hello", "x"⟩
     (by decide) (by decide) (by decide) (by decide) (by decide) rfl⟩

/-- C8: confirmed.  In a cycle where the primary is non-empty and both the
primary and the clipboard differ from their remembered values, the effect
trace is exactly: lock, record both new values in memory, schedule the new
primary for (debounced) publication, unlock — in particular there is no
backend write (no cross-sync), memory ends at the two newly read values,
and the only scheduled publication carries the new primary. -/
theorem dual_change_no_cross_sync (cfg : ClientConfig) (xp xc : String)
    (mem : MemState) (hne : xp ≠ "") (hp : xp ≠ mem.primary)
    (hc : xc ≠ mem.clipboard) :
    clientloopIter cfg 0 xp xc mem
      = [Effect.lockMutex, Effect.setMemPrimary xp, Effect.setMemClipboard xc,
         Effect.schedulePublish xp, Effect.unlockMutex]
    ∧ List.filter Effect.isBackendWrite (clientloopIter cfg 0 xp xc mem) = []
    ∧ applyMem mem (clientloopIter cfg 0 xp xc mem) = ⟨xp, xc⟩
    ∧ publishesOf (clientloopIter cfg 0 xp xc mem) = [xp] := by
  obtain ⟨p, c⟩ := mem
  simp only at hp hc
  simp_all [clientloopIter, publishesOf, applyMem, List.filter, Effect.isBackendWrite]

/-- Witness for C8 at the spec's own scenario: memory at ("a", "a"), primary
read "b", clipboard read "c". -/
theorem dual_change_no_cross_sync_witness :
    (("b" : String) ≠ "" ∧ ("b" : String) ≠ "a" ∧ ("c" : String) ≠ "a")
    ∧ (clientloopIter ⟨false, true⟩ 0 "b" "c" ⟨"a", "a"⟩
        = [Effect.lockMutex, Effect.setMemPrimary "b", Effect.setMemClipboard "c",
           Effect.schedulePublish "b", Effect.unlockMutex]
       ∧ List.filter Effect.isBackendWrite (clientloopIter ⟨false, true⟩ 0 "b" "c" ⟨"a", "a"⟩) = []
       ∧ applyMem ⟨"a", "a"⟩ (clientloopIter ⟨false, true⟩ 0 "b" "c" ⟨"a", "a"⟩) = ⟨"b", "c"⟩
       ∧ publishesOf (clientloopIter ⟨false, true⟩ 0 "b" "c" ⟨"a", "a"⟩) = ["b"]) :=
  ⟨by decide,
   dual_change_no_cross_sync ⟨false, true⟩ "b" "c" ⟨"a", "a"⟩
     (by decide) (by decide) (by decide)⟩

/-- Running delayedPublish over concatenated event sequences composes: the
state threads through and the publish calls concatenate. -/
theorem dpRun_append (init : DelayedPublishEntry) (es1 es2 : List DPEvent) :
    dpRun init (es1 ++ es2)
      = ((dpRun (dpRun init es1).1 es2).1,
         (dpRun init es1).2 ++ (dpRun (dpRun init es1).1 es2).2) := by
  induction es1 generalizing init with
  | nil => simp [dpRun]
  | cons e es ih => simp [dpRun, ih]

/-- A maximal run of arrivals publishes nothing and leaves the last arrival
in the buffer: each arrival only overwrites the buffered entry. -/
theorem dpRun_recvs (init : DelayedPublishEntry) (l : List DelayedPublishEntry)
    (h : l ≠ []) :
    dpRun init (l.map DPEvent.recv) = (l.getLast h, []) := by
  induction l generalizing init with
  | nil => exact absurd rfl h
  | cons a t ih =>
    cases t with
    | nil => simp [dpRun, dpStep, List.getLast]
    | cons b t2 =>
      simp only [List.map, dpRun, dpStep]
      rw [List.getLast_cons]
      exact ih (dpStep init (DPEvent.recv a)).1 (by simp)

/-- C6: confirmed.  For a burst of arrivals inside the settle window — so
the timer, re-armed on each arrival, fires only once, after the last
arrival — delayedPublish publishes nothing during the burst, emits at most
one publish when the timer fires, every emitted publish is the last entry of
the burst and has non-empty content, and when the last content is non-empty
exactly that entry is published and the buffer is reset to the zero
value. -/
theorem delayedPublish_debounce (init : DelayedPublishEntry)
    (burst : List DelayedPublishEntry) (h : burst ≠ []) :
    (dpRun init (burst.map DPEvent.recv)).2 = []
    ∧ (dpRun init (burst.map DPEvent.recv ++ [DPEvent.timerFired])).2.length ≤ 1
    ∧ (∀ p ∈ (dpRun init (burst.map DPEvent.recv ++ [DPEvent.timerFired])).2,
        p = burst.getLast h ∧ p.content ≠ "")
    ∧ ((burst.getLast h).content ≠ "" →
        (dpRun init (burst.map DPEvent.recv ++ [DPEvent.timerFired])).2 = [burst.getLast h]
        ∧ (dpRun init (burst.map DPEvent.recv ++ [DPEvent.timerFired])).1 = emptyEntry) := by
  have hr := dpRun_recvs init burst h
  rw [dpRun_append, hr]
  by_cases hlc : (burst.getLast h).content = "" <;>
  simp_all [dpRun, dpStep]

/-- Witness for C6 at the spec's scenario: requests "a" then "abc" inside
the settle window produce no publish during the burst and exactly one
publish, of "abc", when the timer fires, with the buffer reset. -/
theorem delayedPublish_debounce_witness :
    (([⟨"t", "a", "A", []⟩, ⟨"t", "abc", "A", []⟩] : List DelayedPublishEntry) ≠ [])
    ∧ (dpRun emptyEntry
        ([⟨"t", "a", "A", []⟩, ⟨"t", "abc", "A", []⟩].map DPEvent.recv)).2 = []
    ∧ (dpRun emptyEntry
        ([⟨"t", "a", "A", []⟩, ⟨"t", "abc", "A", []⟩].map DPEvent.recv
          ++ [DPEvent.timerFired])).2 = [⟨"t", "abc", "A", []⟩]
    ∧ (dpRun emptyEntry
        ([⟨"t", "a", "A", []⟩, ⟨"t", "abc", "A", []⟩].map DPEvent.recv
          ++ [DPEvent.timerFired])).1 = emptyEntry :=
  ⟨by decide,
   (delayedPublish_debounce emptyEntry
      [⟨"t", "a", "A", []⟩, ⟨"t", "abc", "A", []⟩] (by decide)).1,
   ((delayedPublish_debounce emptyEntry
      [⟨"t", "a", "A", []⟩, ⟨"t", "abc", "A", []⟩] (by decide)).2.2.2 (by decide)).1,
   ((delayedPublish_debounce emptyEntry
      [⟨"t", "a", "A", []⟩, ⟨"t", "abc", "A", []⟩] (by decide)).2.2.2 (by decide)).2⟩

/-- A fresh (digest not cached), well-formed, non-echo encrypted message
with sync off: subHandler performs exactly lock, cache lookup, decode,
cache insert, one primary backend write, one memory update, unlock, and the
cache gains the digest. -/
theorem subHandlerStep_fresh_ok (instanceID : String) (pw : List Nat)
    (cache : HashCache) (now : Nat) (payload xclip : String) (mem : MemState)
    (m : Lineformat) (hpw : 0 < pw.length)
    (hfresh : cache.get now (md5hex payload) = false)
    (hdec : decodeMQTT payload pw = Except.ok m) (hne : m.Message ≠ "")
    (hid : m.InstanceID ≠ instanceID) (hecho : m.Message ≠ mem.primary) :
    subHandlerStep false instanceID pw cache now payload xclip mem
      = ⟨[Effect.lockMutex, Effect.cacheGet (md5hex payload), Effect.decodeAttempt,
          Effect.cacheSet (md5hex payload), Effect.setXPrimary m.Message,
          Effect.setMemPrimary m.Message, Effect.unlockMutex],
         cache.set now (md5hex payload)⟩ := by
  simp [subHandlerStep, hfresh, hdec, hne, hid, hecho, hpw]

/-- A message whose digest is cached, under encryption: subHandler only
locks, looks the digest up and unlocks — no decode, no write, no cache
change. -/
theorem subHandlerStep_dup_dropped (syncsel : Bool) (instanceID : String)
    (pw : List Nat) (cache : HashCache) (now : Nat) (payload xclip : String)
    (mem : MemState) (hpw : 0 < pw.length)
    (hhit : cache.get now (md5hex payload) = true) :
    subHandlerStep syncsel instanceID pw cache now payload xclip mem
      = ⟨[Effect.lockMutex, Effect.cacheGet (md5hex payload), Effect.unlockMutex], cache⟩ := by
  simp [subHandlerStep, hpw, hhit]

/-- A digest inserted at time now is still found at any time up to now plus
the TTL. -/
theorem HashCache.get_set_self (c : HashCache) (now now2 : Nat) (h : String)
    (hle : now2 ≤ now + cacheTTLSeconds) :
    (c.set now h).get now2 h = true := by
  simp [HashCache.get, HashCache.set, hle]

/-- With encryption disabled the dedup cache is never consulted nor
populated: the cache state is returned unchanged and the trace contains no
cache access. -/
theorem subHandlerStep_plain_cache_untouched (syncsel : Bool) (instanceID : String)
    (cache : HashCache) (now : Nat) (payload xclip : String) (mem : MemState) :
    (subHandlerStep syncsel instanceID [] cache now payload xclip mem).cache = cache
    ∧ List.filter Effect.isCacheAccess
        (subHandlerStep syncsel instanceID [] cache now payload xclip mem).effects = [] := by
  simp only [subHandlerStep]
  repeat' split
  all_goals first | exact ⟨rfl, rfl⟩ | simp_all

/-- C5: confirmed.  The remote-update path never publishes: for every
inbound message, under every configuration, the subHandler trace contains
no publish effect of either kind; and for a message that decodes with a
sender instance ID equal to this instance's, the trace additionally
contains no backend write and no memory update. -/
theorem subHandler_no_publish_and_self_echo_inert (syncsel : Bool)
    (instanceID : String) (pw : List Nat) (cache : HashCache) (now : Nat)
    (payload xclip : String) (mem : MemState) :
    List.filter Effect.isPublish
      (subHandlerStep syncsel instanceID pw cache now payload xclip mem).effects = []
    ∧ (∀ m, decodeMQTT payload pw = Except.ok m → m.InstanceID = instanceID →
        List.filter Effect.isBackendWrite
          (subHandlerStep syncsel instanceID pw cache now payload xclip mem).effects = []
        ∧ List.filter Effect.isMemUpdate
          (subHandlerStep syncsel instanceID pw cache now payload xclip mem).effects = []) := by
  constructor
  · simp only [subHandlerStep]
    repeat' split
    all_goals rfl
  · intro m hdec hid
    simp only [subHandlerStep]
    repeat' split
    all_goals first
      | rfl
      | exact ⟨rfl, rfl⟩
      | simp_all

/-- Witness for C5 at the spec's own scenario: instance "X" receives its own
envelope (instanceID "X", message "hello") back — zero publishes, zero
backend writes, zero memory updates. -/
theorem subHandler_no_publish_and_self_echo_inert_witness :
    List.filter Effect.isPublish
      (subHandlerStep false "X" [] ⟨[]⟩ 0 (encodeEnvelope ⟨"X", "hello"⟩) "" ⟨"", ""⟩).effects = []
    ∧ (List.filter Effect.isBackendWrite
        (subHandlerStep false "X" [] ⟨[]⟩ 0 (encodeEnvelope ⟨"X", "hello"⟩) "" ⟨"", ""⟩).effects = []
       ∧ List.filter Effect.isMemUpdate
        (subHandlerStep false "X" [] ⟨[]⟩ 0 (encodeEnvelope ⟨"X", "hello"⟩) "" ⟨"", ""⟩).effects = []) :=
  ⟨(subHandler_no_publish_and_self_echo_inert false "X" [] ⟨[]⟩ 0
      (encodeEnvelope ⟨"X", "hello"⟩) "" ⟨"", ""⟩).1,
   (subHandler_no_publish_and_self_echo_inert false "X" [] ⟨[]⟩ 0
      (encodeEnvelope ⟨"X", "hello"⟩) "" ⟨"", ""⟩).2 ⟨"X", "hello"⟩ (by decide) rfl⟩

/-- C10: confirmed.  A message whose decoded content equals the in-memory
primary is dropped with no backend write and no memory update, even when
its sender instance ID differs from this instance's: the echo test
(client.go 131) is a disjunction of the sender-ID check and a content
check. -/
theorem subHandler_content_echo_drops_message (syncsel : Bool)
    (instanceID : String) (pw : List Nat) (cache : HashCache) (now : Nat)
    (payload xclip : String) (mem : MemState) (m : Lineformat)
    (hdec : decodeMQTT payload pw = Except.ok m)
    (hecho : m.Message = mem.primary) (hid : m.InstanceID ≠ instanceID) :
    List.filter Effect.isBackendWrite
      (subHandlerStep syncsel instanceID pw cache now payload xclip mem).effects = []
    ∧ List.filter Effect.isMemUpdate
      (subHandlerStep syncsel instanceID pw cache now payload xclip mem).effects = [] := by
  simp only [subHandlerStep]
  repeat' split
  all_goals first
    | rfl
    | exact ⟨rfl, rfl⟩
    | simp_all

/-- Witness for C10: sender "B" (not us, "A") sends "hi", which equals our
in-memory primary — dropped with no writes and no memory updates. -/
theorem subHandler_content_echo_drops_message_witness :
    decodeMQTT (encodeEnvelope ⟨"B", "hi"⟩) [] = Except.ok ⟨"B", "hi"⟩
    ∧ (List.filter Effect.isBackendWrite
        (subHandlerStep true "A" [] ⟨[]⟩ 0 (encodeEnvelope ⟨"B", "hi"⟩) "" ⟨"hi", "x"⟩).effects = []
       ∧ List.filter Effect.isMemUpdate
        (subHandlerStep true "A" [] ⟨[]⟩ 0 (encodeEnvelope ⟨"B", "hi"⟩) "" ⟨"hi", "x"⟩).effects = []) :=
  ⟨by decide,
   subHandler_content_echo_drops_message true "A" [] ⟨[]⟩ 0
     (encodeEnvelope ⟨"B", "hi"⟩) "" ⟨"hi", "x"⟩ ⟨"B", "hi"⟩ (by decide) rfl (by decide)⟩

/-- C7: confirmed.  Under encryption, with a fresh, well-formed, non-echo
first delivery (sync off) and a second delivery of the same payload within
the TTL: the first delivery writes the backend exactly once and enters the
digest into the cache (after the successful decode — subHandlerStep_fresh_ok
shows the insert follows the decode in the trace, and a failed decode
leaves the cache untouched by definition); the second delivery's trace is
just lock, cache lookup, unlock — no decode attempt, no write, no cache
change — so the pair produces exactly one backend write; and with
encryption disabled the cache is never consulted nor populated. -/
theorem encrypted_duplicate_dropped_before_decode (instanceID : String)
    (pw : List Nat) (cache : HashCache) (now1 now2 : Nat)
    (payload xclip1 xclip2 : String) (mem1 mem2 : MemState) (m : Lineformat)
    (hpw : 0 < pw.length)
    (hfresh : cache.get now1 (md5hex payload) = false)
    (hdec : decodeMQTT payload pw = Except.ok m)
    (hid : m.InstanceID ≠ instanceID)
    (hne : m.Message ≠ "")
    (hecho : m.Message ≠ mem1.primary)
    (httl : now2 ≤ now1 + cacheTTLSeconds) :
    (subHandlerStep false instanceID pw cache now1 payload xclip1 mem1).cache
        = cache.set now1 (md5hex payload)
    ∧ List.filter Effect.isBackendWrite
        (subHandlerStep false instanceID pw cache now1 payload xclip1 mem1).effects
        = [Effect.setXPrimary m.Message]
    ∧ (subHandlerStep false instanceID pw
          (subHandlerStep false instanceID pw cache now1 payload xclip1 mem1).cache
          now2 payload xclip2 mem2).effects
        = [Effect.lockMutex, Effect.cacheGet (md5hex payload), Effect.unlockMutex]
    ∧ Effect.decodeAttempt ∉
        (subHandlerStep false instanceID pw
          (subHandlerStep false instanceID pw cache now1 payload xclip1 mem1).cache
          now2 payload xclip2 mem2).effects
    ∧ (subHandlerStep false instanceID pw
          (subHandlerStep false instanceID pw cache now1 payload xclip1 mem1).cache
          now2 payload xclip2 mem2).cache
        = (subHandlerStep false instanceID pw cache now1 payload xclip1 mem1).cache
    ∧ List.filter Effect.isBackendWrite
        ((subHandlerStep false instanceID pw cache now1 payload xclip1 mem1).effects
          ++ (subHandlerStep false instanceID pw
              (subHandlerStep false instanceID pw cache now1 payload xclip1 mem1).cache
              now2 payload xclip2 mem2).effects)
        = [Effect.setXPrimary m.Message]
    ∧ (∀ (sync2 : Bool) (iid2 : String) (cache2 : HashCache) (now3 : Nat)
         (payload2 xclip3 : String) (mem3 : MemState),
         (subHandlerStep sync2 iid2 [] cache2 now3 payload2 xclip3 mem3).cache = cache2
         ∧ List.filter Effect.isCacheAccess
             (subHandlerStep sync2 iid2 [] cache2 now3 payload2 xclip3 mem3).effects = []) := by
  have hA := subHandlerStep_fresh_ok instanceID pw cache now1 payload xclip1 mem1 m
    hpw hfresh hdec hne hid hecho
  have hAc : (subHandlerStep false instanceID pw cache now1 payload xclip1 mem1).cache
      = cache.set now1 (md5hex payload) := by rw [hA]
  have hAe : (subHandlerStep false instanceID pw cache now1 payload xclip1 mem1).effects
      = [Effect.lockMutex, Effect.cacheGet (md5hex payload), Effect.decodeAttempt,
         Effect.cacheSet (md5hex payload), Effect.setXPrimary m.Message,
         Effect.setMemPrimary m.Message, Effect.unlockMutex] := by rw [hA]
  have hget : ((cache.set now1 (md5hex payload)).get now2 (md5hex payload)) = true :=
    HashCache.get_set_self cache now1 now2 (md5hex payload) httl
  have hB := subHandlerStep_dup_dropped false instanceID pw
    (cache.set now1 (md5hex payload)) now2 payload xclip2 mem2 hpw hget
  refine ⟨hAc, ?_, ?_, ?_, ?_, ?_, ?_⟩
  · rw [hAe]
    simp [Effect.isBackendWrite]
  · rw [hAc, hB]
  · rw [hAc, hB]
    simp
  · rw [hAc, hB]
  · rw [hAe, hAc, hB]
    simp [Effect.isBackendWrite]
  · exact fun s i c n p x mm => subHandlerStep_plain_cache_untouched s i c n p x mm

/-- Concrete 32-byte key for the C7 witness. -/
def c7pw : List Nat := List.replicate 32 1

/-- Concrete encrypted payload for the C7 witness: the envelope (sender "B",
message "hi") encrypted under c7pw. -/
def c7payload : String := (encrypt64 (encodeEnvelope ⟨"B", "hi"⟩) c7pw).toOption.getD ""

set_option maxRecDepth 10000 in
/-- Witness for C7: the payload delivered fresh at time 0 and again at time
100 (within the 24h TTL) — one backend write on the first delivery, and the
second delivery's whole trace is lock, cache lookup, unlock. -/
theorem encrypted_duplicate_dropped_before_decode_witness :
    (subHandlerStep false "A" c7pw ⟨[]⟩ 0 c7payload "" ⟨"x", "y"⟩).cache
        = HashCache.set ⟨[]⟩ 0 (md5hex c7payload)
    ∧ List.filter Effect.isBackendWrite
        (subHandlerStep false "A" c7pw ⟨[]⟩ 0 c7payload "" ⟨"x", "y"⟩).effects
        = [Effect.setXPrimary "hi"]
    ∧ (subHandlerStep false "A" c7pw
          (subHandlerStep false "A" c7pw ⟨[]⟩ 0 c7payload "" ⟨"x", "y"⟩).cache
          100 c7payload "" ⟨"hi", "y"⟩).effects
        = [Effect.lockMutex, Effect.cacheGet (md5hex c7payload), Effect.unlockMutex] := by
  have h := encrypted_duplicate_dropped_before_decode "A" c7pw ⟨[]⟩ 0 100 c7payload "" ""
    ⟨"x", "y"⟩ ⟨"hi", "y"⟩ ⟨"B", "hi"⟩
    (by decide) (by decide) (by decide) (by decide) (by decide) (by decide) (by decide)
  exact ⟨h.1, h.2.1, h.2.2.1⟩

end Clipsync
